import Mathlib

/-!
# Verification of the restaurant-survey backend (`server.js`)

Shallow embedding of the survey-intake service: the JSON body values that
reach the handlers, the field-normalization helpers (`toIntOrNull`,
`toFloatOrNull`, `toTextOrNull`), the `surveys` table, and the four
operations (`/api/saveSurvey`, `/api/survey/status/:identifier`,
`/api/survey/data/:identifier`, `/api/surveys`, `/api/export`).

JavaScript numbers are modelled as exact rationals (`ℚ`), with `Option ℚ`
standing for "finite number or NaN/Infinity" where a conversion can fail.
Timestamps are an abstract clock value (`ℕ`) supplied by the environment
(the SQL `NOW()`); row ids are naturals (SQL `SERIAL`, starting at 1).
-/

/-- A JSON-ish value as it reaches the Express handler from `req.body`:
an absent property (`undefined`), `null`, a string, or a finite number
(JSON itself cannot carry NaN/Infinity). -/
inductive JSValue where
  | undefined : JSValue
  | jnull : JSValue
  | jstr : String → JSValue
  | jnum : ℚ → JSValue

/-- The whitespace class used by JavaScript `String.prototype.trim` and by
`Number()` on strings (ASCII whitespace plus NBSP, BOM, LS, PS). -/
def jsWhitespace (c : Char) : Bool :=
  c == ' ' || c == '\t' || c == '\n' || c == '\r' ||
  c == '\x0b' || c == '\x0c' ||
  c.toNat == 0xa0 || c.toNat == 0xfeff || c.toNat == 0x2028 || c.toNat == 0x2029

/-- Trim leading and trailing JS whitespace from a character list. -/
def jsTrimList (cs : List Char) : List Char :=
  ((cs.dropWhile jsWhitespace).reverse.dropWhile jsWhitespace).reverse

/-- JavaScript `String.prototype.trim`. -/
def jsTrim (s : String) : String :=
  String.mk (jsTrimList s.data)

/-- Value of a list of decimal digits. -/
def decDigitsVal (ds : List Char) : ℕ :=
  ds.foldl (fun n c => 10 * n + (c.toNat - '0'.toNat)) 0

/-- Value of a digit in bases up to 16, `none` for a non-digit. -/
def hexDigitVal (c : Char) : Option ℕ :=
  if '0' ≤ c ∧ c ≤ '9' then some (c.toNat - '0'.toNat)
  else if 'a' ≤ c ∧ c ≤ 'f' then some (c.toNat - 'a'.toNat + 10)
  else if 'A' ≤ c ∧ c ≤ 'F' then some (c.toNat - 'A'.toNat + 10)
  else none

/-- Whether `c` is a digit of base `b`. -/
def isRadixDigit (b : ℕ) (c : Char) : Bool :=
  match hexDigitVal c with
  | some v => v < b
  | none => false

/-- Value of a base-`b` digit string (digits already validated). -/
def radixDigitsVal (b : ℕ) (ds : List Char) : ℕ :=
  ds.foldl (fun n c => b * n + (hexDigitVal c).getD 0) 0

/-- Fractional part contributed by the digits after the decimal point. -/
def fracDigitsVal (ds : List Char) : ℚ :=
  (decDigitsVal ds : ℚ) / (10 : ℚ) ^ ds.length

/-- Exponent digits after an optional sign; NaN (`none`) if empty or
not all digits. -/
def parseExpDigits (ds : List Char) : Option ℤ :=
  if !ds.isEmpty && ds.all Char.isDigit then some (decDigitsVal ds : ℤ) else none

/-- Exponent tail after the `e`/`E` marker. -/
def parseExpTail (cs : List Char) : Option ℤ :=
  match cs with
  | '+' :: ds => parseExpDigits ds
  | '-' :: ds => (parseExpDigits ds).map (fun e => -e)
  | ds => parseExpDigits ds

/-- The remainder after the mantissa: either nothing (exponent 0) or a
well-formed `e`/`E` exponent; anything else makes the whole literal NaN. -/
def parseExpPart : List Char → Option ℤ
  | [] => some 0
  | 'e' :: rest => parseExpTail rest
  | 'E' :: rest => parseExpTail rest
  | _ => none

/-- An unsigned decimal literal `digits [. digits] [exponent]`; `none` is
NaN (this also covers `Infinity`, which is equally non-finite, since the
callers only ever ask "finite or not"). -/
def parseDecList (cs : List Char) : Option ℚ :=
  let ip := cs.takeWhile Char.isDigit
  let r1 := cs.dropWhile Char.isDigit
  match r1 with
  | '.' :: r2 =>
    let fp := r2.takeWhile Char.isDigit
    let r3 := r2.dropWhile Char.isDigit
    if ip.isEmpty && fp.isEmpty then none
    else (parseExpPart r3).map (fun e => ((decDigitsVal ip : ℚ) + fracDigitsVal fp) * (10 : ℚ) ^ e)
  | _ =>
    if ip.isEmpty then none
    else (parseExpPart r1).map (fun e => (decDigitsVal ip : ℚ) * (10 : ℚ) ^ e)

/-- A base-prefixed literal body: all chars must be digits of the base. -/
def parseRadix (b : ℕ) (cs : List Char) : Option ℚ :=
  if !cs.isEmpty && cs.all (isRadixDigit b) then some (radixDigitsVal b cs : ℚ) else none

/-- An unsigned numeric literal: `0x`/`0o`/`0b` prefixed or decimal
(a sign is not allowed before a radix prefix in JS). -/
def parseUnsigned (cs : List Char) : Option ℚ :=
  match cs with
  | '0' :: 'x' :: rest => parseRadix 16 rest
  | '0' :: 'X' :: rest => parseRadix 16 rest
  | '0' :: 'o' :: rest => parseRadix 8 rest
  | '0' :: 'O' :: rest => parseRadix 8 rest
  | '0' :: 'b' :: rest => parseRadix 2 rest
  | '0' :: 'B' :: rest => parseRadix 2 rest
  | _ => parseDecList cs

/-- A trimmed numeric literal with optional sign. -/
def parseNumList (cs : List Char) : Option ℚ :=
  match cs with
  | [] => some 0
  | '+' :: rest => parseDecList rest
  | '-' :: rest => (parseDecList rest).map (fun q => -q)
  | _ => parseUnsigned cs

/-- JavaScript `Number(string)` restricted to finite results: `some q`
when the string converts to the finite number `q`, `none` when it
converts to NaN or ±Infinity. -/
def parseJSNumber (s : String) : Option ℚ :=
  parseNumList (jsTrimList s.data)

/-- `Math.round`: nearest integer, ties toward +∞. -/
def jsRound (q : ℚ) : ℤ :=
  Int.floor (q + 1/2)

/-- `toIntOrNull` from `server.js`: `undefined`/`null`/`''` become null,
otherwise `Number(v)`; a finite result is `Math.round`ed, a non-finite
one becomes null. -/
def toIntOrNull : JSValue → Option ℤ
  | .undefined => none
  | .jnull => none
  | .jstr s => if s = "" then none else
      match parseJSNumber s with
      | some q => some (jsRound q)
      | none => none
  | .jnum q => some (jsRound q)

/-- `toFloatOrNull` from `server.js`: like `toIntOrNull` but without
rounding. -/
def toFloatOrNull : JSValue → Option ℚ
  | .undefined => none
  | .jnull => none
  | .jstr s => if s = "" then none else parseJSNumber s
  | .jnum q => some q

/-- Rendering of a number by JavaScript `String(v)`. The exact decimal
rendering is abbreviated (the claims never depend on it); like the real
one it is non-empty and contains no whitespace. -/
def jsNumToString (q : ℚ) : String :=
  toString q

/-- `toTextOrNull` from `server.js`: `undefined`/`null` become null,
otherwise `String(v).trim()`, with an empty result becoming null. -/
def toTextOrNull : JSValue → Option String
  | .undefined => none
  | .jnull => none
  | .jstr s => let t := jsTrim s; if t = "" then none else some t
  | .jnum q => let t := jsTrim (jsNumToString q); if t = "" then none else some t

example : toTextOrNull (.jstr "  S1 ") = some "S1" := by decide
example : toTextOrNull (.jstr "   ") = none := by decide
example : toIntOrNull (.jstr "abc") = none := by decide

/-- One row of the `surveys` table (second, `store_identifier`-keyed schema
in `initDb`). Nullable SQL columns are `Option`s; `BIGINT`/`INTEGER`
columns hold integers, `REAL` columns rationals. -/
structure SurveyRow where
  id : ℕ
  timestamp : ℕ
  store_identifier : String
  update_count : ℕ
  store_name : Option String
  business_type : Option String
  store_area : Option ℤ
  business_circle : Option String
  decoration_level : Option String
  monthly_revenue : Option ℤ
  daily_customers : Option ℤ
  seats : Option ℤ
  food_cost : Option ℤ
  labor_cost : Option ℤ
  rent_cost : Option ℤ
  online_revenue : Option ℤ
  main_platforms : Option String
  marketing_situation : Option String
  total_customers : Option ℤ
  repeat_customers : Option ℤ
  utility_cost : Option ℤ
  marketing_cost : Option ℤ
  average_rating : Option ℚ
  total_reviews : Option ℤ
  bad_reviews : Option ℤ
  service_bad_reviews : Option ℤ
  taste_bad_reviews : Option ℤ
  short_video_count : Option ℤ
  live_stream_count : Option ℤ
  user_agent : Option String
  ip : String

/-- The database: the `surveys` table in insertion order plus the next
`SERIAL` id value. -/
structure Db where
  rows : List SurveyRow
  nextId : ℕ

/-- The `WHERE store_identifier = $1` predicate. -/
def hasIdent (ident : String) (r : SurveyRow) : Bool :=
  r.store_identifier == ident

/-- `req.body` of `/api/saveSurvey`: each property is a `JSValue`
(`undefined` when the property is absent). Field names follow the source. -/
structure SurveyBody where
  storeIdentifier : JSValue := .undefined
  storeName : JSValue := .undefined
  businessType : JSValue := .undefined
  storeArea : JSValue := .undefined
  businessCircle : JSValue := .undefined
  decorationLevel : JSValue := .undefined
  monthlyRevenue : JSValue := .undefined
  dailyCustomers : JSValue := .undefined
  seats : JSValue := .undefined
  foodCost : JSValue := .undefined
  laborCost : JSValue := .undefined
  rentCost : JSValue := .undefined
  onlineRevenue : JSValue := .undefined
  mainPlatforms : JSValue := .undefined
  marketingSituation : JSValue := .undefined
  totalCustomers : JSValue := .undefined
  repeatCustomers : JSValue := .undefined
  utilityCost : JSValue := .undefined
  marketingCost : JSValue := .undefined
  averageRating : JSValue := .undefined
  totalReviews : JSValue := .undefined
  badReviews : JSValue := .undefined
  serviceBadReviews : JSValue := .undefined
  tasteBadReviews : JSValue := .undefined
  shortVideoCount : JSValue := .undefined
  liveStreamCount : JSValue := .undefined

/-- Request metadata captured by the handler: `req.get('user-agent')`
and `req.ip` (absent when the transport did not provide them). -/
structure RequestMeta where
  userAgent : Option String := none
  ip : Option String := none

/-- Result of `/api/saveSurvey`, one constructor per response the handler
can send: 200 `{ok,id,timestamp}`, 400 missing identifier, 403 update
limit, 409 unique-constraint violation, 500 other database error. -/
inductive SaveResult where
  | ok : ℕ → ℕ → SaveResult
  | validationError : SaveResult
  | limitReached : SaveResult
  | duplicateIdentifier : SaveResult
  | storageError : SaveResult

/-- A failure signal raised by the storage engine during a write:
Postgres error code `23505` (unique violation) or anything else. -/
inductive DbError where
  | uniqueViolation : DbError
  | otherFailure : DbError

/-- The `catch` clause of `/api/saveSurvey`: `err.code === '23505'` is
answered with 409, every other storage failure with 500. -/
def dbErrorResponse : DbError → SaveResult
  | .uniqueViolation => .duplicateIdentifier
  | .otherFailure => .storageError

/-- The row written by the INSERT branch: `update_count` 0, all metric
fields from the normalized body, `timestamp` from `NOW()`. -/
def insertRow (now : ℕ) (rid : ℕ) (ident : String) (b : SurveyBody) (m : RequestMeta) : SurveyRow where
  id := rid
  timestamp := now
  store_identifier := ident
  update_count := 0
  store_name := toTextOrNull b.storeName
  business_type := toTextOrNull b.businessType
  store_area := toIntOrNull b.storeArea
  business_circle := toTextOrNull b.businessCircle
  decoration_level := toTextOrNull b.decorationLevel
  monthly_revenue := toIntOrNull b.monthlyRevenue
  daily_customers := toIntOrNull b.dailyCustomers
  seats := toIntOrNull b.seats
  food_cost := toIntOrNull b.foodCost
  labor_cost := toIntOrNull b.laborCost
  rent_cost := toIntOrNull b.rentCost
  online_revenue := toIntOrNull b.onlineRevenue
  main_platforms := toTextOrNull b.mainPlatforms
  marketing_situation := toTextOrNull b.marketingSituation
  total_customers := toIntOrNull b.totalCustomers
  repeat_customers := toIntOrNull b.repeatCustomers
  utility_cost := toIntOrNull b.utilityCost
  marketing_cost := toIntOrNull b.marketingCost
  average_rating := toFloatOrNull b.averageRating
  total_reviews := toIntOrNull b.totalReviews
  bad_reviews := toIntOrNull b.badReviews
  service_bad_reviews := toIntOrNull b.serviceBadReviews
  taste_bad_reviews := toIntOrNull b.tasteBadReviews
  short_video_count := toIntOrNull b.shortVideoCount
  live_stream_count := toIntOrNull b.liveStreamCount
  user_agent := m.userAgent
  ip := m.ip.getD "unknown"

/-- The row produced by the UPDATE branch on the existing row `r`:
every metric column is set from the normalized body, `update_count`
becomes `currentCount + 1`, `timestamp` becomes `NOW()`; `id` and
`store_identifier` are not in the SET list and stay. -/
def updatedRow (now : ℕ) (r : SurveyRow) (b : SurveyBody) (m : RequestMeta) : SurveyRow where
  id := r.id
  timestamp := now
  store_identifier := r.store_identifier
  update_count := r.update_count + 1
  store_name := toTextOrNull b.storeName
  business_type := toTextOrNull b.businessType
  store_area := toIntOrNull b.storeArea
  business_circle := toTextOrNull b.businessCircle
  decoration_level := toTextOrNull b.decorationLevel
  monthly_revenue := toIntOrNull b.monthlyRevenue
  daily_customers := toIntOrNull b.dailyCustomers
  seats := toIntOrNull b.seats
  food_cost := toIntOrNull b.foodCost
  labor_cost := toIntOrNull b.laborCost
  rent_cost := toIntOrNull b.rentCost
  online_revenue := toIntOrNull b.onlineRevenue
  main_platforms := toTextOrNull b.mainPlatforms
  marketing_situation := toTextOrNull b.marketingSituation
  total_customers := toIntOrNull b.totalCustomers
  repeat_customers := toIntOrNull b.repeatCustomers
  utility_cost := toIntOrNull b.utilityCost
  marketing_cost := toIntOrNull b.marketingCost
  average_rating := toFloatOrNull b.averageRating
  total_reviews := toIntOrNull b.totalReviews
  bad_reviews := toIntOrNull b.badReviews
  service_bad_reviews := toIntOrNull b.serviceBadReviews
  taste_bad_reviews := toIntOrNull b.tasteBadReviews
  short_video_count := toIntOrNull b.shortVideoCount
  live_stream_count := toIntOrNull b.liveStreamCount
  user_agent := m.userAgent
  ip := m.ip.getD "unknown"

/-- `/api/saveSurvey` with an injected storage fault: when `fault` is
`some e`, the write statement the handler reaches (INSERT or UPDATE)
raises `e` and the `catch` clause answers. Validation and the
existence/cap checks run first exactly as in the source. -/
def saveSurveyF (now : ℕ) (db : Db) (b : SurveyBody) (m : RequestMeta)
    (fault : Option DbError) : SaveResult × Db :=
  match toTextOrNull b.storeIdentifier with
  | none => (.validationError, db)
  | some ident =>
    match db.rows.find? (hasIdent ident) with
    | none =>
      match fault with
      | some e => (dbErrorResponse e, db)
      | none =>
        (.ok db.nextId now,
         { rows := db.rows ++ [insertRow now db.nextId ident b m], nextId := db.nextId + 1 })
    | some r =>
      if 3 ≤ r.update_count then (.limitReached, db)
      else
        match fault with
        | some e => (dbErrorResponse e, db)
        | none =>
          (.ok r.id now,
           { rows := db.rows.map (fun x => if hasIdent ident x then updatedRow now r b m else x),
             nextId := db.nextId })

/-- `/api/saveSurvey` with the storage engine behaving normally. -/
def saveSurvey (now : ℕ) (db : Db) (b : SurveyBody) (m : RequestMeta) : SaveResult × Db :=
  saveSurveyF now db b m none

/-- Response of `/api/survey/status/:identifier`: 400 when the identifier
is missing, otherwise `{exists, update_count}`. -/
inductive StatusResult where
  | badRequest : StatusResult
  | result : Bool → ℕ → StatusResult

/-- `/api/survey/status/:identifier`. The handler only runs a SELECT, so
it returns the database unchanged. -/
def surveyStatus (db : Db) (identifier : String) : StatusResult × Db :=
  if identifier = "" then (.badRequest, db)
  else
    match db.rows.find? (hasIdent identifier) with
    | none => (.result false 0, db)
    | some r => (.result true r.update_count, db)

/-- The JSON object `/api/survey/data/:identifier` answers with: the
camelCase keys the source maps from the row (and only those). -/
structure SurveyData where
  storeIdentifier : String
  storeName : Option String
  businessType : Option String
  storeArea : Option ℤ
  businessCircle : Option String
  decorationLevel : Option String
  monthlyRevenue : Option ℤ
  dailyCustomers : Option ℤ
  seats : Option ℤ
  foodCost : Option ℤ
  laborCost : Option ℤ
  rentCost : Option ℤ
  onlineRevenue : Option ℤ
  mainPlatforms : Option String
  marketingSituation : Option String
  totalCustomers : Option ℤ
  repeatCustomers : Option ℤ
  utilityCost : Option ℤ
  marketingCost : Option ℤ
  averageRating : Option ℚ
  totalReviews : Option ℤ
  badReviews : Option ℤ
  serviceBadReviews : Option ℤ
  tasteBadReviews : Option ℤ
  shortVideoCount : Option ℤ
  liveStreamCount : Option ℤ

/-- The field-renaming map of `/api/survey/data/:identifier` from a row
to the response object. -/
def dataOfRow (r : SurveyRow) : SurveyData where
  storeIdentifier := r.store_identifier
  storeName := r.store_name
  businessType := r.business_type
  storeArea := r.store_area
  businessCircle := r.business_circle
  decorationLevel := r.decoration_level
  monthlyRevenue := r.monthly_revenue
  dailyCustomers := r.daily_customers
  seats := r.seats
  foodCost := r.food_cost
  laborCost := r.labor_cost
  rentCost := r.rent_cost
  onlineRevenue := r.online_revenue
  mainPlatforms := r.main_platforms
  marketingSituation := r.marketing_situation
  totalCustomers := r.total_customers
  repeatCustomers := r.repeat_customers
  utilityCost := r.utility_cost
  marketingCost := r.marketing_cost
  averageRating := r.average_rating
  totalReviews := r.total_reviews
  badReviews := r.bad_reviews
  serviceBadReviews := r.service_bad_reviews
  tasteBadReviews := r.taste_bad_reviews
  shortVideoCount := r.short_video_count
  liveStreamCount := r.live_stream_count

/-- The keys of the JSON object `/api/survey/data/:identifier` sends, in
source order. -/
def surveyDataKeys : List String :=
  ["storeIdentifier", "storeName", "businessType", "storeArea", "businessCircle",
   "decorationLevel", "monthlyRevenue", "dailyCustomers", "seats", "foodCost",
   "laborCost", "rentCost", "onlineRevenue", "mainPlatforms", "marketingSituation",
   "totalCustomers", "repeatCustomers", "utilityCost", "marketingCost",
   "averageRating", "totalReviews", "badReviews", "serviceBadReviews",
   "tasteBadReviews", "shortVideoCount", "liveStreamCount"]

/-- Response of `/api/survey/data/:identifier`: 400 missing identifier,
404 unknown identifier, 200 with the mapped record. -/
inductive DataResult where
  | badRequest : DataResult
  | notFound : DataResult
  | found : SurveyData → DataResult

/-- `/api/survey/data/:identifier`. SELECT only, database unchanged. -/
def surveyData (db : Db) (identifier : String) : DataResult × Db :=
  if identifier = "" then (.badRequest, db)
  else
    match db.rows.find? (hasIdent identifier) with
    | none => (.notFound, db)
    | some r => (.found (dataOfRow r), db)

/-- The digit-prefix step of `parseInt`: value of the longest leading
run of decimal digits, NaN (`none`) when it is empty. -/
def parseIntDigits (cs : List Char) : Option ℤ :=
  let ds := cs.takeWhile Char.isDigit
  if ds.isEmpty then none else some (decDigitsVal ds : ℤ)

/-- JavaScript `parseInt(s, 10)`: skip leading whitespace, optional sign,
then the longest prefix of decimal digits; NaN (`none`) when there is
none. -/
def parseIntJS (s : String) : Option ℤ :=
  match (jsTrimList s.data) with
  | '+' :: cs => parseIntDigits cs
  | '-' :: cs => (parseIntDigits cs).map (fun n => -n)
  | cs => parseIntDigits cs

/-- The JS `||`-defaulting of a query parameter: an absent or empty
string falls back to the literal default. -/
def queryOrDefault (q : Option String) (d : String) : String :=
  match q with
  | none => d
  | some s => if s = "" then d else s

/-- The `limit` computed by `/api/surveys`:
`Math.min(parseInt(req.query.limit || '100', 10), 1000)` (NaN, i.e.
`none`, propagates and the query then fails). -/
def listLimit (q : Option String) : Option ℤ :=
  (parseIntJS (queryOrDefault q "100")).map (fun n => min n 1000)

/-- The `offset` computed by `/api/surveys`:
`Math.max(parseInt(req.query.offset || '0', 10), 0)`. -/
def listOffset (q : Option String) : Option ℤ :=
  (parseIntJS (queryOrDefault q "0")).map (fun n => max n 0)

/-- `ORDER BY id DESC` as a relation on rows. -/
def idDesc (a b : SurveyRow) : Prop :=
  b.id ≤ a.id

/-- `ORDER BY id ASC` as a relation on rows. -/
def idAsc (a b : SurveyRow) : Prop :=
  a.id ≤ b.id

instance : DecidableRel idDesc :=
  fun a b => inferInstanceAs (Decidable (b.id ≤ a.id))

instance : DecidableRel idAsc :=
  fun a b => inferInstanceAs (Decidable (a.id ≤ b.id))

instance : IsTotal SurveyRow idDesc :=
  ⟨fun a b => le_total b.id a.id⟩

instance : IsTrans SurveyRow idDesc :=
  ⟨fun _ _ _ h h' => le_trans h' h⟩

instance : IsTotal SurveyRow idAsc :=
  ⟨fun a b => le_total a.id b.id⟩

instance : IsTrans SurveyRow idAsc :=
  ⟨fun _ _ _ h h' => le_trans h h'⟩

/-- `SELECT * FROM surveys ORDER BY id DESC LIMIT $1 OFFSET $2` together
with the count query of `/api/surveys`: `none` when the limit or offset
is NaN or the limit is negative (the statement then errors). -/
def listSurveys (db : Db) (limq offq : Option String) : Option (List SurveyRow × ℕ) :=
  match listLimit limq, listOffset offq with
  | some l, some o =>
    if l < 0 then none
    else some ((((List.insertionSort idDesc db.rows).drop o.toNat).take l.toNat, db.rows.length))
  | _, _ => none

/-- `SELECT * FROM surveys ORDER BY id ASC` of `/api/export` (the CSV
rendering downstream is a pure serialization, outside the core). -/
def exportSurveys (db : Db) : List SurveyRow :=
  List.insertionSort idAsc db.rows

/-- Appending a matching row to a table with no match makes `find?` hit
the new row (the INSERT case of the existence check). -/
theorem find?_append_fresh {α : Type} (p : α → Bool) (a : α) (l : List α)
    (hl : l.find? p = none) (ha : p a = true) :
    (l ++ [a]).find? p = some a := by
  induction l with
  | nil => simp [List.find?_cons_of_pos _ ha]
  | cons x xs ih =>
    rw [List.find?_eq_none] at hl
    have hx : ¬ (p x = true) := hl x (by simp)
    have hxs : xs.find? p = none := List.find?_eq_none.mpr (fun y hy => hl y (by simp [hy]))
    simpa [List.find?_cons_of_neg _ hx] using ih hxs

/-- Rewriting every matching row of a table that has a match makes
`find?` hit the replacement (the UPDATE case of the existence check). -/
theorem find?_map_update {α : Type} (p : α → Bool) (a : α) (l : List α) (r : α)
    (h : l.find? p = some r) (ha : p a = true) :
    (l.map (fun x => if p x then a else x)).find? p = some a := by
  induction l with
  | nil => simp at h
  | cons x xs ih =>
    by_cases hx : p x = true
    · simp [hx, List.find?_cons_of_pos _ ha]
    · rw [List.find?_cons_of_neg _ hx] at h
      simp [hx, List.find?_cons_of_neg _ hx, ih h]

/-- The freshly inserted row satisfies the identifier predicate. -/
theorem hasIdent_insertRow (now rid : ℕ) (ident : String) (b : SurveyBody) (m : RequestMeta) :
    hasIdent ident (insertRow now rid ident b m) = true := by
  simp [hasIdent, insertRow]

/-- The updated row keeps the old row's identifier, hence its match. -/
theorem hasIdent_updatedRow (now : ℕ) (ident : String) (r : SurveyRow) (b : SurveyBody)
    (m : RequestMeta) (h : hasIdent ident r = true) :
    hasIdent ident (updatedRow now r b m) = true := by
  simpa [hasIdent, updatedRow] using h

/-- A normalized identifier is never the empty string. -/
theorem toTextOrNull_ne_empty {v : JSValue} {s : String} (h : toTextOrNull v = some s) :
    s ≠ "" := by
  cases v with
  | undefined => simp [toTextOrNull] at h
  | jnull => simp [toTextOrNull] at h
  | jstr t =>
    simp only [toTextOrNull] at h
    split at h
    · simp at h
    · next hne => rw [Option.some.injEq] at h; rw [← h]; exact hne
  | jnum q =>
    simp only [toTextOrNull] at h
    split at h
    · simp at h
    · next hne => rw [Option.some.injEq] at h; rw [← h]; exact hne

/-- INSERT branch of `/api/saveSurvey`: a valid identifier not yet in
the table appends a fresh row with `update_count = 0` and answers with
the new id and the current time. -/
theorem saveSurvey_insert (now : ℕ) (db : Db) (b : SurveyBody) (m : RequestMeta) (ident : String)
    (hb : toTextOrNull b.storeIdentifier = some ident)
    (hfresh : db.rows.find? (hasIdent ident) = none) :
    saveSurvey now db b m =
      (.ok db.nextId now,
       ⟨db.rows ++ [insertRow now db.nextId ident b m], db.nextId + 1⟩) := by
  simp [saveSurvey, saveSurveyF, hb, hfresh]

/-- UPDATE branch of `/api/saveSurvey`: an existing row below the cap is
replaced in place and the response carries its unchanged id. -/
theorem saveSurvey_update (now : ℕ) (db : Db) (b : SurveyBody) (m : RequestMeta) (ident : String)
    (r : SurveyRow) (hb : toTextOrNull b.storeIdentifier = some ident)
    (hfind : db.rows.find? (hasIdent ident) = some r)
    (hlt : r.update_count < 3) :
    saveSurvey now db b m =
      (.ok r.id now,
       ⟨db.rows.map (fun x => if hasIdent ident x then updatedRow now r b m else x),
        db.nextId⟩) := by
  simp [saveSurvey, saveSurveyF, hb, hfind, Nat.not_le.mpr hlt]

/-- Cap branch of `/api/saveSurvey`: an existing row at or above the cap
is rejected and the whole database is left untouched. -/
theorem saveSurvey_limit (now : ℕ) (db : Db) (b : SurveyBody) (m : RequestMeta) (ident : String)
    (r : SurveyRow) (hb : toTextOrNull b.storeIdentifier = some ident)
    (hfind : db.rows.find? (hasIdent ident) = some r)
    (hge : 3 ≤ r.update_count) :
    saveSurvey now db b m = (.limitReached, db) := by
  simp [saveSurvey, saveSurveyF, hb, hfind, hge]

/-- A database with no rows and the `SERIAL` counter at its start. -/
def emptyDb : Db :=
  ⟨[], 1⟩

/-- A body whose identifier is blank after trimming. -/
def bodyBlank : SurveyBody :=
  { storeIdentifier := .jstr "  " }

/-- A minimal valid body for identifier `S1`. -/
def bodyS1 : SurveyBody :=
  { storeIdentifier := .jstr "S1", monthlyRevenue := .jstr "50000" }

/-- Request metadata with nothing supplied. -/
def sampleMeta : RequestMeta :=
  {}

/-- The row `S1` as first created. -/
def rowS1 : SurveyRow :=
  insertRow 10 1 "S1" bodyS1 sampleMeta

/-- A database holding only the fresh `S1` row. -/
def dbOne : Db :=
  ⟨[rowS1], 2⟩

/-- The `S1` row with its update budget exhausted. -/
def rowCap : SurveyRow :=
  { rowS1 with update_count := 3 }

/-- A database holding only the exhausted `S1` row. -/
def dbCap : Db :=
  ⟨[rowCap], 2⟩

/-- C2: when `/api/saveSurvey` finds an existing record whose
`update_count` is at or above the cap of 3, it answers `LimitReached`
(HTTP 403) and returns with the whole database state — every field,
the count and the timestamp of the stored record — exactly as it was:
the count is never clamped. -/
theorem c2_cap_rejected_unchanged (now : ℕ) (db : Db) (b : SurveyBody) (m : RequestMeta)
    (ident : String) (r : SurveyRow)
    (hb : toTextOrNull b.storeIdentifier = some ident)
    (hfind : db.rows.find? (hasIdent ident) = some r)
    (hge : 3 ≤ r.update_count) :
    saveSurvey now db b m = (.limitReached, db) :=
  saveSurvey_limit now db b m ident r hb hfind hge

/-- Witness for C2 at the concrete exhausted database `dbCap`. -/
theorem c2_cap_rejected_unchanged_witness :
    saveSurvey 11 dbCap bodyS1 sampleMeta = (.limitReached, dbCap) :=
  c2_cap_rejected_unchanged 11 dbCap bodyS1 sampleMeta "S1" rowCap (by decide) rfl (by decide)

/-- A submission whose identifier normalizes to a non-empty string is
never answered with the validation error (shared between the validation
and malformed-metric analyses). -/
theorem saveSurvey_ne_validationError (now : ℕ) (db : Db) (b : SurveyBody) (m : RequestMeta)
    (s : String) (hs : toTextOrNull b.storeIdentifier = some s) :
    (saveSurvey now db b m).1 ≠ .validationError := by
  simp only [saveSurvey, saveSurveyF, hs]
  cases hfind : db.rows.find? (hasIdent s) with
  | none => simp
  | some r =>
    by_cases hge : 3 ≤ r.update_count
    · simp [hge]
    · simp [hge]

/-- C3: a submission whose identifier normalizes to nothing (absent,
null, or blank after string coercion and trimming) is answered with the
`ValidationError` response and writes nothing; a submission whose
identifier normalizes to a non-empty trimmed string is never answered
with `ValidationError`. -/
theorem c3_identifier_validation (now : ℕ) (db : Db) (b : SurveyBody) (m : RequestMeta) :
    (toTextOrNull b.storeIdentifier = none →
      saveSurvey now db b m = (.validationError, db))
    ∧ (∀ s, toTextOrNull b.storeIdentifier = some s →
      (saveSurvey now db b m).1 ≠ .validationError)
    ∧ (toTextOrNull .undefined = none ∧ toTextOrNull .jnull = none ∧
       toTextOrNull (.jstr "  ") = none) := by
  refine ⟨?_, ?_, by decide, by decide, by decide⟩
  · intro hnone
    simp [saveSurvey, saveSurveyF, hnone]
  · intro s hs
    exact saveSurvey_ne_validationError now db b m s hs

/-- Witness for C3: the blank identifier is rejected without a write,
the valid one is not rejected. -/
theorem c3_identifier_validation_witness :
    saveSurvey 10 emptyDb bodyBlank sampleMeta = (.validationError, emptyDb)
    ∧ (saveSurvey 10 emptyDb bodyS1 sampleMeta).1 ≠ .validationError :=
  ⟨(c3_identifier_validation 10 emptyDb bodyBlank sampleMeta).1 (by decide),
   (c3_identifier_validation 10 emptyDb bodyS1 sampleMeta).2.1 "S1" (by decide)⟩

/-- C4: when the write statement of `/api/saveSurvey` raises the
uniqueness-violation signal (Postgres `23505`), the handler answers the
specific duplicate-identifier conflict (HTTP 409), and any other storage
failure is answered with the opaque storage-error response (HTTP 500) —
in both cases the failure is surfaced, never swallowed into a success. -/
theorem c4_storage_error_translation (now : ℕ) (db : Db) (b : SurveyBody) (m : RequestMeta)
    (ident : String) (hb : toTextOrNull b.storeIdentifier = some ident)
    (hfresh : db.rows.find? (hasIdent ident) = none) :
    saveSurveyF now db b m (some .uniqueViolation) = (.duplicateIdentifier, db)
    ∧ saveSurveyF now db b m (some .otherFailure) = (.storageError, db) := by
  constructor <;> simp [saveSurveyF, hb, hfresh, dbErrorResponse]

/-- Witness for C4 with a fresh identifier against the empty database. -/
theorem c4_storage_error_translation_witness :
    saveSurveyF 10 emptyDb bodyS1 sampleMeta (some .uniqueViolation) =
      (.duplicateIdentifier, emptyDb)
    ∧ saveSurveyF 10 emptyDb bodyS1 sampleMeta (some .otherFailure) =
      (.storageError, emptyDb) :=
  c4_storage_error_translation 10 emptyDb bodyS1 sampleMeta "S1" (by decide) rfl

/-- C5: `/api/survey/status/:identifier` is a pure read: an unknown
identifier is answered `{exists: false, update_count: 0}` (not an
error), a known one `{exists: true}` with the record's stored count,
and in both cases the database comes back unchanged. -/
theorem c5_status_pure_read (db : Db) (ident : String) (h : ident ≠ "") :
    (db.rows.find? (hasIdent ident) = none →
      surveyStatus db ident = (.result false 0, db))
    ∧ (∀ r, db.rows.find? (hasIdent ident) = some r →
      surveyStatus db ident = (.result true r.update_count, db)) := by
  constructor
  · intro hf
    simp [surveyStatus, h, hf]
  · intro r hf
    simp [surveyStatus, h, hf]

/-- Witness for C5 on the empty database and on `dbOne`. -/
theorem c5_status_pure_read_witness :
    surveyStatus emptyDb "S1" = (.result false 0, emptyDb)
    ∧ surveyStatus dbOne "S1" = (.result true rowS1.update_count, dbOne) :=
  ⟨(c5_status_pure_read emptyDb "S1" (by decide)).1 rfl,
   (c5_status_pure_read dbOne "S1" (by decide)).2 rowS1 rfl⟩

/-- A second submission for `S1` carrying different fields. -/
def bodyS1v2 : SurveyBody :=
  { storeIdentifier := .jstr "S1", seats := .jstr "40" }

/-- C6: a successful update is a full replace: the stored row afterward
carries exactly the new submission's normalized value in every metric
column — omitted fields becoming null — with `update_count` bumped and
the timestamp refreshed, while `id` and `store_identifier` keep their
old values. -/
theorem c6_full_replace (now : ℕ) (db : Db) (b : SurveyBody) (m : RequestMeta)
    (ident : String) (r : SurveyRow)
    (hb : toTextOrNull b.storeIdentifier = some ident)
    (hfind : db.rows.find? (hasIdent ident) = some r)
    (hlt : r.update_count < 3) :
    (saveSurvey now db b m).1 = .ok r.id now
    ∧ (saveSurvey now db b m).2.rows.find? (hasIdent ident) = some
      { id := r.id
        timestamp := now
        store_identifier := r.store_identifier
        update_count := r.update_count + 1
        store_name := toTextOrNull b.storeName
        business_type := toTextOrNull b.businessType
        store_area := toIntOrNull b.storeArea
        business_circle := toTextOrNull b.businessCircle
        decoration_level := toTextOrNull b.decorationLevel
        monthly_revenue := toIntOrNull b.monthlyRevenue
        daily_customers := toIntOrNull b.dailyCustomers
        seats := toIntOrNull b.seats
        food_cost := toIntOrNull b.foodCost
        labor_cost := toIntOrNull b.laborCost
        rent_cost := toIntOrNull b.rentCost
        online_revenue := toIntOrNull b.onlineRevenue
        main_platforms := toTextOrNull b.mainPlatforms
        marketing_situation := toTextOrNull b.marketingSituation
        total_customers := toIntOrNull b.totalCustomers
        repeat_customers := toIntOrNull b.repeatCustomers
        utility_cost := toIntOrNull b.utilityCost
        marketing_cost := toIntOrNull b.marketingCost
        average_rating := toFloatOrNull b.averageRating
        total_reviews := toIntOrNull b.totalReviews
        bad_reviews := toIntOrNull b.badReviews
        service_bad_reviews := toIntOrNull b.serviceBadReviews
        taste_bad_reviews := toIntOrNull b.tasteBadReviews
        short_video_count := toIntOrNull b.shortVideoCount
        live_stream_count := toIntOrNull b.liveStreamCount
        user_agent := m.userAgent
        ip := m.ip.getD "unknown" } := by
  have h := saveSurvey_update now db b m ident r hb hfind hlt
  refine ⟨by rw [h], ?_⟩
  rw [h]
  exact find?_map_update _ _ _ r hfind
    (hasIdent_updatedRow now ident r b m (List.find?_some hfind))

/-- Witness for C6: updating `S1` in `dbOne` with `bodyS1v2`. -/
theorem c6_full_replace_witness :
    (saveSurvey 11 dbOne bodyS1v2 sampleMeta).1 = .ok rowS1.id 11
    ∧ (saveSurvey 11 dbOne bodyS1v2 sampleMeta).2.rows.find? (hasIdent "S1") = some
      { id := rowS1.id
        timestamp := 11
        store_identifier := rowS1.store_identifier
        update_count := rowS1.update_count + 1
        store_name := toTextOrNull bodyS1v2.storeName
        business_type := toTextOrNull bodyS1v2.businessType
        store_area := toIntOrNull bodyS1v2.storeArea
        business_circle := toTextOrNull bodyS1v2.businessCircle
        decoration_level := toTextOrNull bodyS1v2.decorationLevel
        monthly_revenue := toIntOrNull bodyS1v2.monthlyRevenue
        daily_customers := toIntOrNull bodyS1v2.dailyCustomers
        seats := toIntOrNull bodyS1v2.seats
        food_cost := toIntOrNull bodyS1v2.foodCost
        labor_cost := toIntOrNull bodyS1v2.laborCost
        rent_cost := toIntOrNull bodyS1v2.rentCost
        online_revenue := toIntOrNull bodyS1v2.onlineRevenue
        main_platforms := toTextOrNull bodyS1v2.mainPlatforms
        marketing_situation := toTextOrNull bodyS1v2.marketingSituation
        total_customers := toIntOrNull bodyS1v2.totalCustomers
        repeat_customers := toIntOrNull bodyS1v2.repeatCustomers
        utility_cost := toIntOrNull bodyS1v2.utilityCost
        marketing_cost := toIntOrNull bodyS1v2.marketingCost
        average_rating := toFloatOrNull bodyS1v2.averageRating
        total_reviews := toIntOrNull bodyS1v2.totalReviews
        bad_reviews := toIntOrNull bodyS1v2.badReviews
        service_bad_reviews := toIntOrNull bodyS1v2.serviceBadReviews
        taste_bad_reviews := toIntOrNull bodyS1v2.tasteBadReviews
        short_video_count := toIntOrNull bodyS1v2.shortVideoCount
        live_stream_count := toIntOrNull bodyS1v2.liveStreamCount
        user_agent := sampleMeta.userAgent
        ip := sampleMeta.ip.getD "unknown" } :=
  c6_full_replace 11 dbOne bodyS1v2 sampleMeta "S1" rowS1 (by decide) rfl (by decide)

/-- `Math.round` pinned by the bounds of the floor it computes. -/
theorem jsRound_eq_of_bounds (q : ℚ) (n : ℤ) (h1 : (n : ℚ) ≤ q + 1/2) (h2 : q + 1/2 < n + 1) :
    jsRound q = n := by
  unfold jsRound
  rw [Int.floor_eq_iff]
  · exact ⟨h1, by exact_mod_cast h2⟩

/-- `Math.round 0 = 0`. -/
theorem jsRound_zero : jsRound 0 = 0 :=
  jsRound_eq_of_bounds 0 0 (by norm_num) (by norm_num)

/-- C8: a successful submit (insert or update) stores exactly the
normalized values, so a subsequent fetch of the same identifier returns
them unchanged — each field with the type of its normalizer, and null
kept distinct from zero: an absent or empty field is null, a zero field
is `0`. -/
theorem c8_roundtrip (now : ℕ) (db : Db) (b : SurveyBody) (m : RequestMeta)
    (ident : String) {i t : ℕ}
    (hb : toTextOrNull b.storeIdentifier = some ident)
    (hok : (saveSurvey now db b m).1 = .ok i t) :
    (surveyData (saveSurvey now db b m).2 ident).1 = .found
      { storeIdentifier := ident
        storeName := toTextOrNull b.storeName
        businessType := toTextOrNull b.businessType
        storeArea := toIntOrNull b.storeArea
        businessCircle := toTextOrNull b.businessCircle
        decorationLevel := toTextOrNull b.decorationLevel
        monthlyRevenue := toIntOrNull b.monthlyRevenue
        dailyCustomers := toIntOrNull b.dailyCustomers
        seats := toIntOrNull b.seats
        foodCost := toIntOrNull b.foodCost
        laborCost := toIntOrNull b.laborCost
        rentCost := toIntOrNull b.rentCost
        onlineRevenue := toIntOrNull b.onlineRevenue
        mainPlatforms := toTextOrNull b.mainPlatforms
        marketingSituation := toTextOrNull b.marketingSituation
        totalCustomers := toIntOrNull b.totalCustomers
        repeatCustomers := toIntOrNull b.repeatCustomers
        utilityCost := toIntOrNull b.utilityCost
        marketingCost := toIntOrNull b.marketingCost
        averageRating := toFloatOrNull b.averageRating
        totalReviews := toIntOrNull b.totalReviews
        badReviews := toIntOrNull b.badReviews
        serviceBadReviews := toIntOrNull b.serviceBadReviews
        tasteBadReviews := toIntOrNull b.tasteBadReviews
        shortVideoCount := toIntOrNull b.shortVideoCount
        liveStreamCount := toIntOrNull b.liveStreamCount }
    ∧ toIntOrNull (.jstr "") = none ∧ toIntOrNull .undefined = none
    ∧ toIntOrNull (.jnum 0) = some 0 := by
  have hne : ident ≠ "" := toTextOrNull_ne_empty hb
  refine ⟨?_, rfl, rfl, by rw [toIntOrNull, jsRound_zero]⟩
  cases hfind : db.rows.find? (hasIdent ident) with
  | none =>
    rw [saveSurvey_insert now db b m ident hb hfind]
    have hf := find?_append_fresh (hasIdent ident) (insertRow now db.nextId ident b m)
      db.rows hfind (hasIdent_insertRow now db.nextId ident b m)
    simp only [surveyData, hne, if_neg (by exact hne)]
    rw [hf]
    rfl
  | some r =>
    by_cases hge : 3 ≤ r.update_count
    · rw [saveSurvey_limit now db b m ident r hb hfind hge] at hok
      simp at hok
    · have hid : r.store_identifier = ident := by
        have := List.find?_some hfind
        simpa [hasIdent] using this
      rw [saveSurvey_update now db b m ident r hb hfind (Nat.lt_of_not_le hge)]
      have hf := find?_map_update (hasIdent ident) (updatedRow now r b m) db.rows r hfind
        (hasIdent_updatedRow now ident r b m (List.find?_some hfind))
      simp only [surveyData, hne, if_neg (by exact hne)]
      rw [hf]
      simp [dataOfRow, updatedRow, hid]

/-- Witness for C8: the first submission of `bodyS1` round-trips. -/
theorem c8_roundtrip_witness :
    (surveyData (saveSurvey 10 emptyDb bodyS1 sampleMeta).2 "S1").1 = .found
      { storeIdentifier := "S1"
        storeName := toTextOrNull bodyS1.storeName
        businessType := toTextOrNull bodyS1.businessType
        storeArea := toIntOrNull bodyS1.storeArea
        businessCircle := toTextOrNull bodyS1.businessCircle
        decorationLevel := toTextOrNull bodyS1.decorationLevel
        monthlyRevenue := toIntOrNull bodyS1.monthlyRevenue
        dailyCustomers := toIntOrNull bodyS1.dailyCustomers
        seats := toIntOrNull bodyS1.seats
        foodCost := toIntOrNull bodyS1.foodCost
        laborCost := toIntOrNull bodyS1.laborCost
        rentCost := toIntOrNull bodyS1.rentCost
        onlineRevenue := toIntOrNull bodyS1.onlineRevenue
        mainPlatforms := toTextOrNull bodyS1.mainPlatforms
        marketingSituation := toTextOrNull bodyS1.marketingSituation
        totalCustomers := toIntOrNull bodyS1.totalCustomers
        repeatCustomers := toIntOrNull bodyS1.repeatCustomers
        utilityCost := toIntOrNull bodyS1.utilityCost
        marketingCost := toIntOrNull bodyS1.marketingCost
        averageRating := toFloatOrNull bodyS1.averageRating
        totalReviews := toIntOrNull bodyS1.totalReviews
        badReviews := toIntOrNull bodyS1.badReviews
        serviceBadReviews := toIntOrNull bodyS1.serviceBadReviews
        tasteBadReviews := toIntOrNull bodyS1.tasteBadReviews
        shortVideoCount := toIntOrNull bodyS1.shortVideoCount
        liveStreamCount := toIntOrNull bodyS1.liveStreamCount }
    ∧ toIntOrNull (.jstr "") = none ∧ toIntOrNull .undefined = none
    ∧ toIntOrNull (.jnum 0) = some 0 :=
  c8_roundtrip 10 emptyDb bodyS1 sampleMeta "S1" (by decide) rfl

/-- C9 counterexample: the response object of
`/api/survey/data/:identifier` carries none of the keys `id`,
`updateCount`/`update_count`, `timestamp`, `userAgent` or `ip`, so the
endpoint does not return the full record of the data model. -/
theorem c9_fetch_counterexample :
    "id" ∉ surveyDataKeys ∧ "updateCount" ∉ surveyDataKeys
    ∧ "update_count" ∉ surveyDataKeys ∧ "timestamp" ∉ surveyDataKeys
    ∧ "userAgent" ∉ surveyDataKeys ∧ "ip" ∉ surveyDataKeys := by
  decide

/-- C9 (amended): for an existing identifier the fetch endpoint returns
the record's `storeIdentifier` together with all 25 metric fields mapped
to camelCase — omitting `id`, `updateCount`, `timestamp` and the request
metadata — and answers `NotFound` when no record with that identifier
exists; the database is returned unchanged. -/
theorem c9_fetch_amended (db : Db) (ident : String) (h : ident ≠ "") :
    (db.rows.find? (hasIdent ident) = none →
      surveyData db ident = (.notFound, db))
    ∧ (∀ r, db.rows.find? (hasIdent ident) = some r →
      surveyData db ident = (.found
        { storeIdentifier := r.store_identifier
          storeName := r.store_name
          businessType := r.business_type
          storeArea := r.store_area
          businessCircle := r.business_circle
          decorationLevel := r.decoration_level
          monthlyRevenue := r.monthly_revenue
          dailyCustomers := r.daily_customers
          seats := r.seats
          foodCost := r.food_cost
          laborCost := r.labor_cost
          rentCost := r.rent_cost
          onlineRevenue := r.online_revenue
          mainPlatforms := r.main_platforms
          marketingSituation := r.marketing_situation
          totalCustomers := r.total_customers
          repeatCustomers := r.repeat_customers
          utilityCost := r.utility_cost
          marketingCost := r.marketing_cost
          averageRating := r.average_rating
          totalReviews := r.total_reviews
          badReviews := r.bad_reviews
          serviceBadReviews := r.service_bad_reviews
          tasteBadReviews := r.taste_bad_reviews
          shortVideoCount := r.short_video_count
          liveStreamCount := r.live_stream_count }, db)) := by
  constructor
  · intro hf
    simp [surveyData, h, hf]
  · intro r hf
    simp [surveyData, h, hf]
    rfl

/-- Witness for the amended C9 on the empty database and on `dbOne`. -/
theorem c9_fetch_amended_witness :
    surveyData emptyDb "S1" = (.notFound, emptyDb)
    ∧ surveyData dbOne "S1" = (.found
      { storeIdentifier := rowS1.store_identifier
        storeName := rowS1.store_name
        businessType := rowS1.business_type
        storeArea := rowS1.store_area
        businessCircle := rowS1.business_circle
        decorationLevel := rowS1.decoration_level
        monthlyRevenue := rowS1.monthly_revenue
        dailyCustomers := rowS1.daily_customers
        seats := rowS1.seats
        foodCost := rowS1.food_cost
        laborCost := rowS1.labor_cost
        rentCost := rowS1.rent_cost
        onlineRevenue := rowS1.online_revenue
        mainPlatforms := rowS1.main_platforms
        marketingSituation := rowS1.marketing_situation
        totalCustomers := rowS1.total_customers
        repeatCustomers := rowS1.repeat_customers
        utilityCost := rowS1.utility_cost
        marketingCost := rowS1.marketing_cost
        averageRating := rowS1.average_rating
        totalReviews := rowS1.total_reviews
        badReviews := rowS1.bad_reviews
        serviceBadReviews := rowS1.service_bad_reviews
        tasteBadReviews := rowS1.taste_bad_reviews
        shortVideoCount := rowS1.short_video_count
        liveStreamCount := rowS1.live_stream_count }, dbOne) :=
  ⟨(c9_fetch_amended emptyDb "S1" (by decide)).1 rfl,
   (c9_fetch_amended dbOne "S1" (by decide)).2 rowS1 rfl⟩

/-- C10: malformed metric values never cause a `ValidationError`: a
valid identifier means the response is something other than validation
failure regardless of the metric fields; a metric whose `Number`
conversion is non-finite is normalized to null (and ends up stored as
null), and a finite fractional value for an integer-typed field is
rounded with `Math.round` before storage. -/
theorem c10_metric_normalization :
    (∀ (now : ℕ) (db : Db) (b : SurveyBody) (m : RequestMeta) (s : String),
      toTextOrNull b.storeIdentifier = some s →
      (saveSurvey now db b m).1 ≠ .validationError)
    ∧ (∀ s, parseJSNumber s = none →
      toIntOrNull (.jstr s) = none ∧ toFloatOrNull (.jstr s) = none)
    ∧ (∀ q : ℚ, toIntOrNull (.jnum q) = some (jsRound q))
    ∧ toIntOrNull (.jstr "abc") = none
    ∧ toIntOrNull (.jnum (5/2)) = some 3
    ∧ (∀ (now : ℕ) (db : Db) (b : SurveyBody) (m : RequestMeta) (ident : String),
      toTextOrNull b.storeIdentifier = some ident →
      db.rows.find? (hasIdent ident) = none →
      ((saveSurvey now db b m).2.rows.find? (hasIdent ident)).map SurveyRow.monthly_revenue
        = some (toIntOrNull b.monthlyRevenue)) := by
  refine ⟨?_, ?_, fun q => rfl, by decide, ?_, ?_⟩
  · intro now db b m s hs
    exact saveSurvey_ne_validationError now db b m s hs
  · intro s hs
    by_cases he : s = ""
    · subst he
      exact ⟨rfl, rfl⟩
    · constructor
      · simp [toIntOrNull, he, hs]
      · simp [toFloatOrNull, he, hs]
  · have h52 : jsRound (5/2) = 3 := jsRound_eq_of_bounds (5/2) 3 (by norm_num) (by norm_num)
    rw [toIntOrNull, h52]
  · intro now db b m ident hb hfresh
    rw [saveSurvey_insert now db b m ident hb hfresh]
    rw [find?_append_fresh (hasIdent ident) (insertRow now db.nextId ident b m)
      db.rows hfresh (hasIdent_insertRow now db.nextId ident b m)]
    rfl

/-- Witness for C10: a valid identifier with a non-numeric metric is not
rejected, the metric is normalized and stored as null. -/
theorem c10_metric_normalization_witness :
    (saveSurvey 10 emptyDb bodyS1 sampleMeta).1 ≠ .validationError
    ∧ (toIntOrNull (.jstr "abc") = none ∧ toFloatOrNull (.jstr "abc") = none)
    ∧ ((saveSurvey 10 emptyDb bodyS1 sampleMeta).2.rows.find?
        (hasIdent "S1")).map SurveyRow.monthly_revenue = some (toIntOrNull bodyS1.monthlyRevenue) :=
  ⟨c10_metric_normalization.1 10 emptyDb bodyS1 sampleMeta "S1" (by decide),
   c10_metric_normalization.2.1 "abc" (by decide),
   c10_metric_normalization.2.2.2.2.2 10 emptyDb bodyS1 sampleMeta "S1" (by decide) rfl⟩

/-- C7: `/api/surveys` clamps a parseable `limit` to at most 1000 and a
parseable `offset` to at least 0 (in particular `limit=1001, offset=-1`
runs as `limit=1000, offset=0`), the page it returns is ordered by
descending id, and the `/api/export` row set is ordered by ascending id. -/
theorem c7_list_clamps_and_order :
    (∀ (q : Option String) (n : ℤ), listLimit q = some n → n ≤ 1000)
    ∧ (∀ (q : Option String) (n : ℤ), listOffset q = some n → 0 ≤ n)
    ∧ listLimit (some "1001") = some 1000
    ∧ listOffset (some "-1") = some 0
    ∧ (∀ (db : Db) (limq offq : Option String) (rows : List SurveyRow) (total : ℕ),
      listSurveys db limq offq = some (rows, total) → List.Sorted idDesc rows)
    ∧ (∀ db : Db, List.Sorted idAsc (exportSurveys db)) := by
  refine ⟨?_, ?_, by decide, by decide, ?_, ?_⟩
  · intro q n h
    unfold listLimit at h
    cases hp : parseIntJS (queryOrDefault q "100") with
    | none => rw [hp] at h; simp at h
    | some k =>
      rw [hp] at h
      simp only [Option.map_some'] at h
      rw [Option.some.injEq] at h
      rw [← h]
      exact min_le_right k 1000
  · intro q n h
    unfold listOffset at h
    cases hp : parseIntJS (queryOrDefault q "0") with
    | none => rw [hp] at h; simp at h
    | some k =>
      rw [hp] at h
      simp only [Option.map_some'] at h
      rw [Option.some.injEq] at h
      rw [← h]
      exact le_max_right k 0
  · intro db limq offq rows total h
    unfold listSurveys at h
    cases hl : listLimit limq with
    | none => rw [hl] at h; simp at h
    | some l =>
      cases ho : listOffset offq with
      | none => rw [hl, ho] at h; simp at h
      | some o =>
        rw [hl, ho] at h
        dsimp only at h
        by_cases hneg : l < 0
        · rw [if_pos hneg] at h; simp at h
        · rw [if_neg hneg] at h
          rw [Option.some.injEq, Prod.mk.injEq] at h
          rw [← h.1]
          have hsub : (((List.insertionSort idDesc db.rows).drop o.toNat).take l.toNat).Sublist
              (List.insertionSort idDesc db.rows) :=
            (List.take_sublist _ _).trans (List.drop_sublist _ _)
          exact List.Pairwise.sublist hsub (List.sorted_insertionSort idDesc db.rows)
  · intro db
    exact List.sorted_insertionSort idAsc db.rows

/-- Witness for C7 at the clamped inputs and the empty database. -/
theorem c7_list_clamps_and_order_witness :
    (1000 : ℤ) ≤ 1000 ∧ (0 : ℤ) ≤ 0
    ∧ List.Sorted idDesc ([] : List SurveyRow)
    ∧ List.Sorted idAsc (exportSurveys emptyDb) :=
  ⟨c7_list_clamps_and_order.1 (some "1001") 1000 (by decide),
   c7_list_clamps_and_order.2.1 (some "-1") 0 (by decide),
   c7_list_clamps_and_order.2.2.2.2.1 emptyDb none none [] 0 rfl,
   c7_list_clamps_and_order.2.2.2.2.2 emptyDb⟩

/-- C1: starting from a fresh identifier, the first submission creates
exactly one record with `update_count = 0` and answers with its id and
timestamp; each of the next three sequential submissions to the same
identifier succeeds, keeps the id, and raises `update_count` by exactly
1; the fourth further submission is rejected with `LimitReached` and the
database — in particular `update_count = 3` — is left unchanged. -/
theorem c1_sequential_bounded_updates
    (db : Db) (ident : String) (t0 t1 t2 t3 t4 : ℕ)
    (b0 b1 b2 b3 b4 : SurveyBody) (m0 m1 m2 m3 m4 : RequestMeta)
    (r0 r1 r2 r3 r4 : SaveResult) (d0 d1 d2 d3 d4 : Db)
    (hfresh : db.rows.find? (hasIdent ident) = none)
    (hb0 : toTextOrNull b0.storeIdentifier = some ident)
    (hb1 : toTextOrNull b1.storeIdentifier = some ident)
    (hb2 : toTextOrNull b2.storeIdentifier = some ident)
    (hb3 : toTextOrNull b3.storeIdentifier = some ident)
    (hb4 : toTextOrNull b4.storeIdentifier = some ident)
    (hs0 : saveSurvey t0 db b0 m0 = (r0, d0))
    (hs1 : saveSurvey t1 d0 b1 m1 = (r1, d1))
    (hs2 : saveSurvey t2 d1 b2 m2 = (r2, d2))
    (hs3 : saveSurvey t3 d2 b3 m3 = (r3, d3))
    (hs4 : saveSurvey t4 d3 b4 m4 = (r4, d4)) :
    r0 = .ok db.nextId t0
    ∧ (d0.rows.filter (hasIdent ident)).length = 1
    ∧ (d0.rows.find? (hasIdent ident)).map SurveyRow.update_count = some 0
    ∧ r1 = .ok db.nextId t1
    ∧ (d1.rows.find? (hasIdent ident)).map SurveyRow.update_count = some 1
    ∧ r2 = .ok db.nextId t2
    ∧ (d2.rows.find? (hasIdent ident)).map SurveyRow.update_count = some 2
    ∧ r3 = .ok db.nextId t3
    ∧ (d3.rows.find? (hasIdent ident)).map SurveyRow.update_count = some 3
    ∧ r4 = .limitReached
    ∧ d4 = d3 := by
  rw [saveSurvey_insert t0 db b0 m0 ident hb0 hfresh] at hs0
  injection hs0 with hr0 hd0
  subst hr0
  subst hd0
  have hfind0 : (Db.mk (db.rows ++ [insertRow t0 db.nextId ident b0 m0])
      (db.nextId + 1)).rows.find? (hasIdent ident) = some (insertRow t0 db.nextId ident b0 m0) :=
    find?_append_fresh _ _ _ hfresh (hasIdent_insertRow t0 db.nextId ident b0 m0)
  rw [saveSurvey_update t1 _ b1 m1 ident _ hb1 hfind0 (by norm_num [insertRow])] at hs1
  injection hs1 with hr1 hd1
  subst hr1
  subst hd1
  have hfind1 := find?_map_update (hasIdent ident)
    (updatedRow t1 (insertRow t0 db.nextId ident b0 m0) b1 m1) _ _ hfind0
    (hasIdent_updatedRow t1 ident _ b1 m1 (List.find?_some hfind0))
  rw [saveSurvey_update t2 _ b2 m2 ident _ hb2 hfind1 (by norm_num [updatedRow, insertRow])] at hs2
  injection hs2 with hr2 hd2
  subst hr2
  subst hd2
  have hfind2 := find?_map_update (hasIdent ident)
    (updatedRow t2 (updatedRow t1 (insertRow t0 db.nextId ident b0 m0) b1 m1) b2 m2) _ _ hfind1
    (hasIdent_updatedRow t2 ident _ b2 m2 (List.find?_some hfind1))
  rw [saveSurvey_update t3 _ b3 m3 ident _ hb3 hfind2 (by norm_num [updatedRow, insertRow])] at hs3
  injection hs3 with hr3 hd3
  subst hr3
  subst hd3
  have hfind3 := find?_map_update (hasIdent ident)
    (updatedRow t3 (updatedRow t2 (updatedRow t1 (insertRow t0 db.nextId ident b0 m0) b1 m1)
      b2 m2) b3 m3) _ _ hfind2
    (hasIdent_updatedRow t3 ident _ b3 m3 (List.find?_some hfind2))
  rw [saveSurvey_limit t4 _ b4 m4 ident _ hb4 hfind3 (by norm_num [updatedRow, insertRow])] at hs4
  injection hs4 with hr4 hd4
  subst hr4
  subst hd4
  have hnil : db.rows.filter (hasIdent ident) = [] :=
    List.filter_eq_nil_iff.mpr (List.find?_eq_none.mp hfresh)
  refine ⟨rfl, ?_, ?_, rfl, ?_, rfl, ?_, rfl, ?_, rfl, rfl⟩
  · simp [List.filter_append, hnil, hasIdent_insertRow]
  · rw [hfind0]
    rfl
  · rw [hfind1]
    rfl
  · rw [hfind2]
    rfl
  · rw [hfind3]
    rfl

/-- Witness for C1: the five-step scenario on the empty database. -/
theorem c1_sequential_bounded_updates_witness :
    ∃ (r0 r1 r2 r3 r4 : SaveResult) (d0 d1 d2 d3 d4 : Db),
      saveSurvey 10 emptyDb bodyS1 sampleMeta = (r0, d0)
      ∧ saveSurvey 11 d0 bodyS1v2 sampleMeta = (r1, d1)
      ∧ saveSurvey 12 d1 bodyS1 sampleMeta = (r2, d2)
      ∧ saveSurvey 13 d2 bodyS1v2 sampleMeta = (r3, d3)
      ∧ saveSurvey 14 d3 bodyS1 sampleMeta = (r4, d4)
      ∧ (r0 = .ok emptyDb.nextId 10
        ∧ (d0.rows.filter (hasIdent "S1")).length = 1
        ∧ (d0.rows.find? (hasIdent "S1")).map SurveyRow.update_count = some 0
        ∧ r1 = .ok emptyDb.nextId 11
        ∧ (d1.rows.find? (hasIdent "S1")).map SurveyRow.update_count = some 1
        ∧ r2 = .ok emptyDb.nextId 12
        ∧ (d2.rows.find? (hasIdent "S1")).map SurveyRow.update_count = some 2
        ∧ r3 = .ok emptyDb.nextId 13
        ∧ (d3.rows.find? (hasIdent "S1")).map SurveyRow.update_count = some 3
        ∧ r4 = .limitReached
        ∧ d4 = d3) := by
  refine ⟨_, _, _, _, _, _, _, _, _, _, rfl, rfl, rfl, rfl, rfl, ?_⟩
  exact c1_sequential_bounded_updates emptyDb "S1" 10 11 12 13 14
    bodyS1 bodyS1v2 bodyS1 bodyS1v2 bodyS1
    sampleMeta sampleMeta sampleMeta sampleMeta sampleMeta
    _ _ _ _ _ _ _ _ _ _
    rfl (by decide) (by decide) (by decide) (by decide) (by decide)
    rfl rfl rfl rfl rfl
